import Mathlib

/-!
Shallow embedding of `src/backend/bridge_engine.py` (RouteSafe-AI).

The numeric type of the Python code (float) is modelled by the real
numbers `ℝ`; `math.radians`, `math.cos`, `math.sqrt` become `Real.pi`,
`Real.cos`, `Real.sqrt`.  The pandas DataFrame of bridge rows becomes a
`List Bridge`, and the CSV source of `BridgeEngine.__init__` becomes an
explicit tabular value (`Csv`); a missing file is the `none` input and a
raised exception is an `Except.error` result.
-/

open Real

/-- Source line 13: `EARTH_RADIUS_M = 6371000.0`. -/
def EARTH_RADIUS_M : ℝ := 6371000

/-- Source lines 16-20: dataclass `Bridge` with `lat`, `lon`, `height_m`. -/
structure Bridge where
  lat : ℝ
  lon : ℝ
  height_m : ℝ

/-- Source lines 23-28: dataclass `BridgeCheckResult`. -/
structure BridgeCheckResult where
  has_conflict : Bool
  near_height_limit : Bool
  nearest_bridge : Option Bridge
  nearest_distance_m : Option ℝ

/-- The engine state after `__init__`: the four stored parameters and the
cleaned bridge table `self.bridges_df` (source lines 53-56, 66). -/
structure BridgeEngine where
  search_radius_m : ℝ
  conflict_clearance_m : ℝ
  near_clearance_m : ℝ
  bridges_df : List Bridge

/-- Column names of the tabular source.  The Python code compares string
column names; only `lat`, `lon`, `height_m` are meaningful to it, so the
name space is modelled as those three names plus arbitrary other names. -/
inductive ColName where
  | lat
  | lon
  | height_m
  | other (n : Nat)
deriving DecidableEq

/-- One row of the tabular source: the cells present in that row, where a
`none` value is a NaN cell (pandas missing value). -/
structure CsvRow where
  cells : List (ColName × Option ℝ)

/-- A successfully parsed tabular source (`pd.read_csv` result). -/
structure Csv where
  columns : List ColName
  rows : List CsvRow

/-- Value of column `c` in row `r`; `none` when the cell is absent or NaN. -/
def cellValue (r : CsvRow) (c : ColName) : Option ℝ :=
  match r.cells.lookup c with
  | some v => v
  | none => none

/-- Source line 66: a row of `df[["lat", "lon", "height_m"]].dropna()`
survives exactly when all three cells are present and non-NaN. -/
def rowToBridge (r : CsvRow) : Option Bridge :=
  match cellValue r ColName.lat, cellValue r ColName.lon, cellValue r ColName.height_m with
  | some la, some lo, some h => some ⟨la, lo, h⟩
  | _, _, _ => none

/-- The exceptions `__init__` can raise: `pd.read_csv` on a missing file
(`FileNotFoundError`) and the explicit `ValueError` of source line 64. -/
inductive InitError where
  | fileNotFound
  | missingColumns
deriving DecidableEq

/-- Source lines 40-66, `BridgeEngine.__init__`: read the CSV (a `none`
source is a missing file, whose read error propagates), raise `ValueError`
when any of the required columns `lat`, `lon`, `height_m` is absent,
otherwise keep the rows whose three required cells are all present. -/
def BridgeEngine.init (src : Option Csv)
    (search_radius_m conflict_clearance_m near_clearance_m : ℝ) :
    Except InitError BridgeEngine :=
  match src with
  | none => Except.error InitError.fileNotFound
  | some df =>
      if df.columns.contains ColName.lat && df.columns.contains ColName.lon &&
          df.columns.contains ColName.height_m then
        Except.ok ⟨search_radius_m, conflict_clearance_m, near_clearance_m,
          df.rows.filterMap rowToBridge⟩
      else
        Except.error InitError.missingColumns

/-- Source lines 71-73: `math.radians`. -/
noncomputable def radians (x : ℝ) : ℝ :=
  x * (Real.pi / 180)

/-- Source lines 95-104, `_latlon_to_xy_m`: equirectangular projection
`x = R * lon_rad * cos(ref_lat_rad)`, `y = R * lat_rad`. -/
noncomputable def latlon_to_xy_m (lat lon ref_lat_rad : ℝ) : ℝ × ℝ :=
  (EARTH_RADIUS_M * radians lon * Real.cos ref_lat_rad,
   EARTH_RADIUS_M * radians lat)

/-- Source lines 106-136, `_point_to_segment_distance_m`: distance from
point P to segment AB in the plane, with the zero-length-segment guard of
lines 119-123 and the clamp of the projection parameter `t` to `[0, 1]`. -/
noncomputable def point_to_segment_distance_m (px py ax ay bx by_ : ℝ) : ℝ :=
  let vx := bx - ax
  let vy := by_ - ay
  let wx := px - ax
  let wy := py - ay
  let seg_len2 := vx * vx + vy * vy
  if seg_len2 = 0 then
    Real.sqrt ((px - ax) * (px - ax) + (py - ay) * (py - ay))
  else
    let t := (wx * vx + wy * vy) / seg_len2
    let c := if t < 0 then (ax, ay)
             else if 1 < t then (bx, by_)
             else (ax + t * vx, ay + t * vy)
    Real.sqrt ((px - c.1) * (px - c.1) + (py - c.2) * (py - c.2))

/-- Source lines 158-160: `mid_lat_rad = radians((start_lat + end_lat)/2)`. -/
noncomputable def legMidLatRad (start stop : ℝ × ℝ) : ℝ :=
  radians ((start.1 + stop.1) / 2)

/-- Bounding box of the corridor around the leg (source lines 162-172). -/
structure BoxBounds where
  lat_min : ℝ
  lat_max : ℝ
  lon_min : ℝ
  lon_max : ℝ

/-- Source lines 162-172: search radius converted to degrees
(`1/111000` per metre of latitude, `1/(111000 * max(cos(mid_lat_rad), 0.1))`
per metre of longitude) and the padded axis-aligned box over the leg. -/
noncomputable def legBox (e : BridgeEngine) (start stop : ℝ × ℝ) : BoxBounds :=
  let start_lat := start.1
  let start_lon := start.2
  let end_lat := stop.1
  let end_lon := stop.2
  let mid_lat_rad := legMidLatRad start stop
  let deg_per_m_lat : ℝ := 1 / 111000
  let deg_per_m_lon : ℝ := 1 / (111000 * max (Real.cos mid_lat_rad) 0.1)
  let d_lat := e.search_radius_m * deg_per_m_lat
  let d_lon := e.search_radius_m * deg_per_m_lon
  ⟨min start_lat end_lat - d_lat,
   max start_lat end_lat + d_lat,
   min start_lon end_lon - d_lon,
   max start_lon end_lon + d_lon⟩

/-- Source lines 174-179: the candidate bridges, the rows of `bridges_df`
inside the bounding box. -/
noncomputable def candidatesOf (e : BridgeEngine) (start stop : ℝ × ℝ) : List Bridge :=
  e.bridges_df.filter fun br =>
    decide ((legBox e start stop).lat_min ≤ br.lat) &&
    decide (br.lat ≤ (legBox e start stop).lat_max) &&
    decide ((legBox e start stop).lon_min ≤ br.lon) &&
    decide (br.lon ≤ (legBox e start stop).lon_max)

/-- Source line 191: projected start point `(ax, ay)` of the leg. -/
noncomputable def legA (start stop : ℝ × ℝ) : ℝ × ℝ :=
  latlon_to_xy_m start.1 start.2 (legMidLatRad start stop)

/-- Source line 192: projected end point `(bx, by)` of the leg. -/
noncomputable def legB (start stop : ℝ × ℝ) : ℝ × ℝ :=
  latlon_to_xy_m stop.1 stop.2 (legMidLatRad start stop)

/-- Source lines 204-206: the distance `dist_m` computed for one bridge in
the loop body, given the projection reference latitude `m` and the
projected leg endpoints `a`, `b`. -/
noncomputable def stepDist (m : ℝ) (a b : ℝ × ℝ) (br : Bridge) : ℝ :=
  point_to_segment_distance_m
    (latlon_to_xy_m br.lat br.lon m).1 (latlon_to_xy_m br.lat br.lon m).2
    a.1 a.2 b.1 b.2

/-- The distance from a bridge to a leg exactly as `check_leg` computes it
(source lines 190-206): equirectangular projection centred on the leg's
mean latitude, then planar point-to-segment distance. -/
noncomputable def bridgeLegDist (start stop : ℝ × ℝ) (br : Bridge) : ℝ :=
  stepDist (legMidLatRad start stop) (legA start stop) (legB start stop) br

/-- Source lines 199-223, the body of the `for _, row in candidates.iterrows()`
loop: skip the bridge when `dist_m > search_radius_m`, otherwise update the
nearest-bridge tracking (lines 213-216) and the two flags (lines 218-223);
a conflicting bridge sets `near_height_limit` as well (line 221). -/
noncomputable def stepBridge (e : BridgeEngine) (vehicle_height_m m : ℝ)
    (a b : ℝ × ℝ) (st : BridgeCheckResult) (br : Bridge) : BridgeCheckResult :=
  let dist_m := stepDist m a b br
  if e.search_radius_m < dist_m then st
  else
    let clearance := br.height_m - vehicle_height_m
    let nearer : Bool :=
      match st.nearest_distance_m with
      | none => true
      | some d => decide (dist_m < d)
    let st1 : BridgeCheckResult :=
      if nearer then ⟨st.has_conflict, st.near_height_limit, some br, some dist_m⟩
      else st
    if clearance ≤ e.conflict_clearance_m then
      ⟨true, true, st1.nearest_bridge, st1.nearest_distance_m⟩
    else if clearance ≤ e.near_clearance_m then
      ⟨st1.has_conflict, true, st1.nearest_bridge, st1.nearest_distance_m⟩
    else st1

/-- Source lines 141-230, `BridgeEngine.check_leg`: filter the catalog by
the bounding box, return the trivially safe result when no candidate
remains (lines 182-188), otherwise run the per-bridge loop over the
candidates starting from the all-false accumulator (lines 194-197). -/
noncomputable def check_leg (e : BridgeEngine) (start stop : ℝ × ℝ)
    (vehicle_height_m : ℝ) : BridgeCheckResult :=
  let candidates := candidatesOf e start stop
  if candidates.isEmpty then ⟨false, false, none, none⟩
  else
    candidates.foldl
      (stepBridge e vehicle_height_m (legMidLatRad start stop) (legA start stop) (legB start stop))
      ⟨false, false, none, none⟩

/-- Modelled from the spec: the reference check of §4.2 step 2, which
"computes the segment distance for every bridge in the catalog" — the same
per-bridge loop as `check_leg` but with no bounding-box pre-filter, used to
state that the pre-filter is a pure performance optimization. -/
noncomputable def check_leg_noFilter (e : BridgeEngine) (start stop : ℝ × ℝ)
    (vehicle_height_m : ℝ) : BridgeCheckResult :=
  e.bridges_df.foldl
    (stepBridge e vehicle_height_m (legMidLatRad start stop) (legA start stop) (legB start stop))
    ⟨false, false, none, none⟩

/-! ### Characterization of the per-bridge loop -/

/-- One loop step changes `has_conflict` exactly by OR-ing in "this bridge is
in range and its clearance is at most the conflict margin", and changes
`near_height_limit` exactly by OR-ing in "this bridge is in range and its
clearance is at most the conflict margin or at most the near margin". -/
lemma stepBridge_flags (e : BridgeEngine) (vh m : ℝ) (a b : ℝ × ℝ)
    (st : BridgeCheckResult) (br : Bridge) :
    (stepBridge e vh m a b st br).has_conflict =
      (st.has_conflict ||
        (decide (stepDist m a b br ≤ e.search_radius_m) &&
         decide (br.height_m - vh ≤ e.conflict_clearance_m))) ∧
    (stepBridge e vh m a b st br).near_height_limit =
      (st.near_height_limit ||
        (decide (stepDist m a b br ≤ e.search_radius_m) &&
         (decide (br.height_m - vh ≤ e.conflict_clearance_m) ||
          decide (br.height_m - vh ≤ e.near_clearance_m)))) := by
  obtain ⟨c, n, nb, nd⟩ := st
  simp only [stepBridge]
  rcases lt_or_le e.search_radius_m (stepDist m a b br) with h1 | h1
  · simp [h1, not_le.mpr h1]
  · rw [if_neg (not_lt.mpr h1)]
    cases nd <;> split_ifs <;> simp_all

/-- Folding the loop body over a list ORs the per-bridge conflict conditions
into the accumulator's `has_conflict`. -/
lemma foldl_stepBridge_has_conflict (e : BridgeEngine) (vh m : ℝ) (a b : ℝ × ℝ)
    (l : List Bridge) (st : BridgeCheckResult) :
    (l.foldl (stepBridge e vh m a b) st).has_conflict =
      (st.has_conflict || l.any fun br =>
        decide (stepDist m a b br ≤ e.search_radius_m) &&
        decide (br.height_m - vh ≤ e.conflict_clearance_m)) := by
  induction l generalizing st with
  | nil => simp
  | cons hd tl ih =>
      rw [List.foldl_cons, ih, (stepBridge_flags e vh m a b st hd).1]
      simp [Bool.or_assoc]

/-- Folding the loop body over a list ORs the per-bridge near conditions
into the accumulator's `near_height_limit`. -/
lemma foldl_stepBridge_near (e : BridgeEngine) (vh m : ℝ) (a b : ℝ × ℝ)
    (l : List Bridge) (st : BridgeCheckResult) :
    (l.foldl (stepBridge e vh m a b) st).near_height_limit =
      (st.near_height_limit || l.any fun br =>
        decide (stepDist m a b br ≤ e.search_radius_m) &&
        (decide (br.height_m - vh ≤ e.conflict_clearance_m) ||
         decide (br.height_m - vh ≤ e.near_clearance_m))) := by
  induction l generalizing st with
  | nil => simp
  | cons hd tl ih =>
      rw [List.foldl_cons, ih, (stepBridge_flags e vh m a b st hd).2]
      simp [Bool.or_assoc]

/-- The `has_conflict` flag of `check_leg` is the disjunction, over the
bounding-box candidates, of "in search range and clearance at most the
conflict margin". -/
lemma check_leg_has_conflict_eq (e : BridgeEngine) (s t : ℝ × ℝ) (vh : ℝ) :
    (check_leg e s t vh).has_conflict =
      (candidatesOf e s t).any fun br =>
        decide (bridgeLegDist s t br ≤ e.search_radius_m) &&
        decide (br.height_m - vh ≤ e.conflict_clearance_m) := by
  unfold check_leg
  rcases hc : candidatesOf e s t with _ | ⟨hd, tl⟩
  · simp
  · rw [if_neg (by simp)]
    rw [foldl_stepBridge_has_conflict]
    simp [bridgeLegDist]

/-- The `near_height_limit` flag of `check_leg` is the disjunction, over the
bounding-box candidates, of "in search range and clearance at most the
conflict margin or at most the near margin". -/
lemma check_leg_near_eq (e : BridgeEngine) (s t : ℝ × ℝ) (vh : ℝ) :
    (check_leg e s t vh).near_height_limit =
      (candidatesOf e s t).any fun br =>
        decide (bridgeLegDist s t br ≤ e.search_radius_m) &&
        (decide (br.height_m - vh ≤ e.conflict_clearance_m) ||
         decide (br.height_m - vh ≤ e.near_clearance_m)) := by
  unfold check_leg
  rcases hc : candidatesOf e s t with _ | ⟨hd, tl⟩
  · simp
  · rw [if_neg (by simp)]
    rw [foldl_stepBridge_near]
    simp [bridgeLegDist]

/-- The flags of the unfiltered reference check, in the same form. -/
lemma check_leg_noFilter_flags_eq (e : BridgeEngine) (s t : ℝ × ℝ) (vh : ℝ) :
    (check_leg_noFilter e s t vh).has_conflict =
      (e.bridges_df.any fun br =>
        decide (bridgeLegDist s t br ≤ e.search_radius_m) &&
        decide (br.height_m - vh ≤ e.conflict_clearance_m)) ∧
    (check_leg_noFilter e s t vh).near_height_limit =
      (e.bridges_df.any fun br =>
        decide (bridgeLegDist s t br ≤ e.search_radius_m) &&
        (decide (br.height_m - vh ≤ e.conflict_clearance_m) ||
         decide (br.height_m - vh ≤ e.near_clearance_m))) := by
  unfold check_leg_noFilter
  rw [foldl_stepBridge_has_conflict, foldl_stepBridge_near]
  simp [bridgeLegDist]

/-! ### Well-formedness of the accumulator -/

/-- Invariant of the loop accumulator: the nearest-bridge and
nearest-distance fields are `none` together, a recorded distance never
exceeds the search radius, and a raised flag guarantees a recorded bridge. -/
def resultWF (r : ℝ) (res : BridgeCheckResult) : Prop :=
  (res.nearest_bridge = none ↔ res.nearest_distance_m = none) ∧
  (∀ d : ℝ, res.nearest_distance_m = some d → d ≤ r) ∧
  ((res.has_conflict = true ∨ res.near_height_limit = true) →
    res.nearest_bridge.isSome = true)

/-- Shape of one loop step: either the bridge is skipped and the accumulator
is unchanged, or it is in range and the result records either this bridge
with its distance or the previously recorded nearest bridge. -/
lemma stepBridge_shape (e : BridgeEngine) (vh m : ℝ) (a b : ℝ × ℝ)
    (st : BridgeCheckResult) (br : Bridge) :
    stepBridge e vh m a b st br = st ∨
    (stepDist m a b br ≤ e.search_radius_m ∧ ∃ c2 n2 : Bool,
      (stepBridge e vh m a b st br = ⟨c2, n2, some br, some (stepDist m a b br)⟩ ∨
       ((∃ d0 : ℝ, st.nearest_distance_m = some d0) ∧
        stepBridge e vh m a b st br =
          ⟨c2, n2, st.nearest_bridge, st.nearest_distance_m⟩))) := by
  obtain ⟨c, n, nb, nd⟩ := st
  simp only [stepBridge]
  rcases lt_or_le e.search_radius_m (stepDist m a b br) with hd | hd
  · left; rw [if_pos hd]
  · rw [if_neg (not_lt.mpr hd)]
    cases nd with
    | none =>
        dsimp only
        right
        refine ⟨hd, ?_⟩
        split_ifs <;>
          first
            | exact ⟨true, true, Or.inl rfl⟩
            | exact ⟨c, true, Or.inl rfl⟩
            | exact ⟨c, n, Or.inl rfl⟩
            | (exfalso; simp_all)
    | some d0 =>
        dsimp only
        right
        refine ⟨hd, ?_⟩
        split_ifs <;>
          first
            | exact ⟨true, true, Or.inl rfl⟩
            | exact ⟨true, true, Or.inr ⟨⟨d0, rfl⟩, rfl⟩⟩
            | exact ⟨c, true, Or.inl rfl⟩
            | exact ⟨c, true, Or.inr ⟨⟨d0, rfl⟩, rfl⟩⟩
            | exact ⟨c, n, Or.inl rfl⟩
            | exact ⟨c, n, Or.inr ⟨⟨d0, rfl⟩, rfl⟩⟩

/-- One loop step preserves the accumulator invariant. -/
lemma stepBridge_wf (e : BridgeEngine) (vh m : ℝ) (a b : ℝ × ℝ)
    (st : BridgeCheckResult) (br : Bridge)
    (hst : resultWF e.search_radius_m st) :
    resultWF e.search_radius_m (stepBridge e vh m a b st br) := by
  obtain ⟨h1, h2, h3⟩ := hst
  rcases stepBridge_shape e vh m a b st br with heq | ⟨hd, c2, n2, heq | ⟨⟨d0, hd0⟩, heq⟩⟩
  · rw [heq]; exact ⟨h1, h2, h3⟩
  · rw [heq]
    exact ⟨by simp, fun d hdd => by
      simp only [Option.some.injEq] at hdd
      exact hdd ▸ hd, by simp⟩
  · rw [heq]
    refine ⟨h1, h2, fun _ => ?_⟩
    rcases hnb : st.nearest_bridge with _ | x
    · exact absurd (h1.mp hnb) (by simp [hd0])
    · simp

/-- The loop preserves the accumulator invariant. -/
lemma foldl_stepBridge_wf (e : BridgeEngine) (vh m : ℝ) (a b : ℝ × ℝ)
    (l : List Bridge) (st : BridgeCheckResult)
    (hst : resultWF e.search_radius_m st) :
    resultWF e.search_radius_m (l.foldl (stepBridge e vh m a b) st) := by
  induction l generalizing st with
  | nil => exact hst
  | cons hd tl ih => exact ih _ (stepBridge_wf e vh m a b st hd hst)

/-! ### Geometry of the bounding-box pre-filter -/

/-- A convex combination (parameter clamped to `[0, 1]`) stays between its
endpoints. -/
lemma convex_comb_mem (u v t : ℝ) (h0 : 0 ≤ t) (h1 : t ≤ 1) :
    min u v ≤ u + t * (v - u) ∧ u + t * (v - u) ≤ max u v := by
  rcases le_total u v with h | h
  · rw [min_eq_left h, max_eq_right h]
    constructor <;> nlinarith
  · rw [min_eq_right h, max_eq_left h]
    constructor <;> nlinarith

/-- The segment distance is realized at a point whose coordinates lie in the
coordinate-wise interval spanned by the segment endpoints. -/
lemma point_to_segment_closest (px py ax ay bx by_ : ℝ) :
    ∃ cx cy : ℝ, min ax bx ≤ cx ∧ cx ≤ max ax bx ∧ min ay by_ ≤ cy ∧ cy ≤ max ay by_ ∧
      point_to_segment_distance_m px py ax ay bx by_ =
        Real.sqrt ((px - cx) * (px - cx) + (py - cy) * (py - cy)) := by
  simp only [point_to_segment_distance_m]
  by_cases hz : (bx - ax) * (bx - ax) + (by_ - ay) * (by_ - ay) = 0
  · have hx : bx = ax := by nlinarith [sq_nonneg (bx - ax), sq_nonneg (by_ - ay)]
    have hy : by_ = ay := by nlinarith [sq_nonneg (bx - ax), sq_nonneg (by_ - ay)]
    rw [if_pos hz]
    exact ⟨ax, ay, by simp [hx], by simp [hx], by simp [hy], by simp [hy], rfl⟩
  · rw [if_neg hz]
    split_ifs with ht0 ht1
    · exact ⟨ax, ay, min_le_left _ _, le_max_left _ _, min_le_left _ _, le_max_left _ _, rfl⟩
    · exact ⟨bx, by_, min_le_right _ _, le_max_right _ _, min_le_right _ _, le_max_right _ _, rfl⟩
    · obtain ⟨hcx1, hcx2⟩ := convex_comb_mem ax bx _ (not_lt.mp ht0) (not_lt.mp ht1)
      obtain ⟨hcy1, hcy2⟩ := convex_comb_mem ay by_ _ (not_lt.mp ht0) (not_lt.mp ht1)
      exact ⟨_, _, hcx1, hcx2, hcy1, hcy2, rfl⟩

/-- Numeric bound: one degree of latitude in the projection is more than the
111000 m used by the bounding-box conversion. -/
lemma earth_deg_m_lower : (111000 : ℝ) ≤ EARTH_RADIUS_M * (Real.pi / 180) := by
  have h := Real.pi_gt_d6
  unfold EARTH_RADIUS_M
  nlinarith

/-- Lower-bound transfer: a bound scaled by the larger factor implies the
bound scaled by the smaller positive factor. -/
lemma scaled_near (Kk Dd r M L : ℝ) (hKD : Dd ≤ Kk) (hD : 0 < Dd) (hr : 0 ≤ r)
    (h : Kk * M - r ≤ Kk * L) : M - r / Dd ≤ L := by
  rcases le_or_lt M L with hML | hML
  · have hrd : 0 ≤ r / Dd := div_nonneg hr hD.le
    linarith
  · have h1 : Dd * (M - L) ≤ Kk * (M - L) :=
      mul_le_mul_of_nonneg_right hKD (by linarith)
    have h2 : Kk * (M - L) ≤ r := by nlinarith
    have h3 : M - L ≤ r / Dd := by
      rw [le_div_iff₀ hD]; nlinarith
    linarith

/-- Upper-bound version of `scaled_near`. -/
lemma scaled_near_upper (Kk Dd r M L : ℝ) (hKD : Dd ≤ Kk) (hD : 0 < Dd) (hr : 0 ≤ r)
    (h : Kk * L ≤ Kk * M + r) : L ≤ M + r / Dd := by
  have := scaled_near Kk Dd r (-M) (-L) hKD hD hr (by nlinarith)
  linarith

/-- The leg distance written with the projected coordinates in scaled form. -/
lemma bridgeLegDist_coords (s t : ℝ × ℝ) (br : Bridge) :
    bridgeLegDist s t br =
      point_to_segment_distance_m
        (EARTH_RADIUS_M * (Real.pi / 180) * Real.cos (legMidLatRad s t) * br.lon)
        (EARTH_RADIUS_M * (Real.pi / 180) * br.lat)
        (EARTH_RADIUS_M * (Real.pi / 180) * Real.cos (legMidLatRad s t) * s.2)
        (EARTH_RADIUS_M * (Real.pi / 180) * s.1)
        (EARTH_RADIUS_M * (Real.pi / 180) * Real.cos (legMidLatRad s t) * t.2)
        (EARTH_RADIUS_M * (Real.pi / 180) * t.1) := by
  simp only [bridgeLegDist, stepDist, legA, legB, latlon_to_xy_m, radians]
  congr 1 <;> ring

/-- A bridge within the search radius of the leg lies inside the bounding
box, provided the cosine clamp of the longitude conversion is inactive. -/
lemma in_radius_imp_in_box (e : BridgeEngine) (s t : ℝ × ℝ) (br : Bridge)
    (hcos : 0.1 ≤ Real.cos (legMidLatRad s t))
    (hd : bridgeLegDist s t br ≤ e.search_radius_m) :
    (legBox e s t).lat_min ≤ br.lat ∧ br.lat ≤ (legBox e s t).lat_max ∧
    (legBox e s t).lon_min ≤ br.lon ∧ br.lon ≤ (legBox e s t).lon_max := by
  have hK1 : (111000 : ℝ) ≤ EARTH_RADIUS_M * (Real.pi / 180) := earth_deg_m_lower
  have hK0 : (0 : ℝ) ≤ EARTH_RADIUS_M * (Real.pi / 180) := by linarith
  have hc0 : (0 : ℝ) < Real.cos (legMidLatRad s t) := lt_of_lt_of_le (by norm_num) hcos
  set K : ℝ := EARTH_RADIUS_M * (Real.pi / 180) with hK
  set co : ℝ := Real.cos (legMidLatRad s t) with hco
  have hKc0 : (0 : ℝ) ≤ K * co := mul_nonneg hK0 hc0.le
  have hKcD : 111000 * co ≤ K * co := mul_le_mul_of_nonneg_right hK1 hc0.le
  have hD : (0 : ℝ) < 111000 * co := by positivity
  obtain ⟨cx, cy, hcx1, hcx2, hcy1, hcy2, hdist⟩ :=
    point_to_segment_closest (K * co * br.lon) (K * br.lat)
      (K * co * s.2) (K * s.1) (K * co * t.2) (K * t.1)
  rw [bridgeLegDist_coords, hdist] at hd
  have hr0 : (0 : ℝ) ≤ e.search_radius_m := le_trans (Real.sqrt_nonneg _) hd
  have habsx : |K * co * br.lon - cx| ≤ e.search_radius_m := by
    rw [← Real.sqrt_mul_self_eq_abs]
    exact le_trans (Real.sqrt_le_sqrt (by nlinarith [sq_nonneg (K * br.lat - cy)])) hd
  have habsy : |K * br.lat - cy| ≤ e.search_radius_m := by
    rw [← Real.sqrt_mul_self_eq_abs]
    exact le_trans (Real.sqrt_le_sqrt (by nlinarith [sq_nonneg (K * co * br.lon - cx)])) hd
  obtain ⟨hax1, hax2⟩ := abs_le.mp habsx
  obtain ⟨hay1, hay2⟩ := abs_le.mp habsy
  have hylb : K * min s.1 t.1 - e.search_radius_m ≤ K * br.lat := by
    have h1 : K * min s.1 t.1 ≤ K * s.1 :=
      mul_le_mul_of_nonneg_left (min_le_left _ _) hK0
    have h2 : K * min s.1 t.1 ≤ K * t.1 :=
      mul_le_mul_of_nonneg_left (min_le_right _ _) hK0
    have h3 : K * min s.1 t.1 ≤ cy := le_trans (le_min h1 h2) hcy1
    linarith
  have hyub : K * br.lat ≤ K * max s.1 t.1 + e.search_radius_m := by
    have h1 : K * s.1 ≤ K * max s.1 t.1 :=
      mul_le_mul_of_nonneg_left (le_max_left _ _) hK0
    have h2 : K * t.1 ≤ K * max s.1 t.1 :=
      mul_le_mul_of_nonneg_left (le_max_right _ _) hK0
    have h3 : cy ≤ K * max s.1 t.1 := le_trans hcy2 (max_le h1 h2)
    linarith
  have hxlb : K * co * min s.2 t.2 - e.search_radius_m ≤ K * co * br.lon := by
    have h1 : K * co * min s.2 t.2 ≤ K * co * s.2 :=
      mul_le_mul_of_nonneg_left (min_le_left _ _) hKc0
    have h2 : K * co * min s.2 t.2 ≤ K * co * t.2 :=
      mul_le_mul_of_nonneg_left (min_le_right _ _) hKc0
    have h3 : K * co * min s.2 t.2 ≤ cx := le_trans (le_min h1 h2) hcx1
    linarith
  have hxub : K * co * br.lon ≤ K * co * max s.2 t.2 + e.search_radius_m := by
    have h1 : K * co * s.2 ≤ K * co * max s.2 t.2 :=
      mul_le_mul_of_nonneg_left (le_max_left _ _) hKc0
    have h2 : K * co * t.2 ≤ K * co * max s.2 t.2 :=
      mul_le_mul_of_nonneg_left (le_max_right _ _) hKc0
    have h3 : cx ≤ K * co * max s.2 t.2 := le_trans hcx2 (max_le h1 h2)
    linarith
  simp only [legBox, ← hco]
  rw [max_eq_left hcos]
  refine ⟨?_, ?_, ?_, ?_⟩
  · rw [mul_one_div]
    exact scaled_near K 111000 e.search_radius_m _ _ hK1 (by norm_num) hr0 hylb
  · rw [mul_one_div]
    exact scaled_near_upper K 111000 e.search_radius_m _ _ hK1 (by norm_num) hr0 hyub
  · rw [mul_one_div]
    exact scaled_near (K * co) (111000 * co) e.search_radius_m _ _ hKcD hD hr0
      (by nlinarith [hxlb])
  · rw [mul_one_div]
    exact scaled_near_upper (K * co) (111000 * co) e.search_radius_m _ _ hKcD hD hr0
      (by nlinarith [hxub])

/-! ### Concrete evaluations -/

/-- A bridge at latitude and longitude zero with the given height. -/
def bridgeAt (hm : ℝ) : Bridge := ⟨0, 0, hm⟩

/-- An engine with the default thresholds (300 m search radius, 0 m conflict
clearance, 0.25 m near clearance) over a single bridge at the origin. -/
def engineAt (hm : ℝ) : BridgeEngine := ⟨300, 0, 0.25, [bridgeAt hm]⟩

/-- The origin point, used as a degenerate leg. -/
def pO : ℝ × ℝ := ((0 : ℝ), (0 : ℝ))

lemma legMidLatRad_pO : legMidLatRad pO pO = 0 := by
  simp [legMidLatRad, pO, radians]

lemma cos_legMidLatRad_pO : Real.cos (legMidLatRad pO pO) = 1 := by
  rw [legMidLatRad_pO, Real.cos_zero]

lemma legA_pO : legA pO pO = ((0 : ℝ), (0 : ℝ)) := by
  simp [legA, pO, latlon_to_xy_m, radians]

lemma legB_pO : legB pO pO = ((0 : ℝ), (0 : ℝ)) := by
  simp [legB, pO, latlon_to_xy_m, radians]

lemma dist_bridgeAt_pO (hm : ℝ) : bridgeLegDist pO pO (bridgeAt hm) = 0 := by
  rw [bridgeLegDist, legA_pO, legB_pO]
  simp [stepDist, bridgeAt, latlon_to_xy_m, radians, point_to_segment_distance_m]

lemma candidatesOf_engineAt (hm : ℝ) :
    candidatesOf (engineAt hm) pO pO = [bridgeAt hm] := by
  simp only [candidatesOf, engineAt, legBox, cos_legMidLatRad_pO, pO, bridgeAt]
  norm_num

lemma check_leg_engineAt (hm vh : ℝ) :
    check_leg (engineAt hm) pO pO vh =
      if hm - vh ≤ 0 then ⟨true, true, some (bridgeAt hm), some 0⟩
      else if hm - vh ≤ 0.25 then ⟨false, true, some (bridgeAt hm), some 0⟩
      else ⟨false, false, some (bridgeAt hm), some 0⟩ := by
  rw [check_leg]
  rw [candidatesOf_engineAt]
  rw [if_neg (by simp)]
  rw [List.foldl_cons, List.foldl_nil]
  rw [stepBridge]
  have hd : stepDist (legMidLatRad pO pO) (legA pO pO) (legB pO pO) (bridgeAt hm) = 0 :=
    dist_bridgeAt_pO hm
  rw [hd]
  rw [if_neg (by norm_num [engineAt])]
  simp only [engineAt, bridgeAt]
  split_ifs <;> simp_all [bridgeAt]

/-- On a zero-length segment the guard of source lines 119-123 takes the
point-to-point branch. -/
lemma point_to_segment_same (px py ax ay : ℝ) :
    point_to_segment_distance_m px py ax ay ax ay =
      Real.sqrt ((px - ax) * (px - ax) + (py - ay) * (py - ay)) := by
  simp only [point_to_segment_distance_m]
  rw [if_pos (by ring)]

/-- A bridge one degree of latitude north of the origin, roughly 111 km
from the degenerate leg at the origin. -/
def farBridge : Bridge := ⟨1, 0, 5⟩

lemma dist_farBridge : bridgeLegDist pO pO farBridge = EARTH_RADIUS_M * radians 1 := by
  rw [bridgeLegDist, legA_pO, legB_pO]
  rw [show stepDist (legMidLatRad pO pO) ((0 : ℝ), (0 : ℝ)) ((0 : ℝ), (0 : ℝ)) farBridge =
      point_to_segment_distance_m
        (EARTH_RADIUS_M * radians 0 * Real.cos (legMidLatRad pO pO))
        (EARTH_RADIUS_M * radians 1) 0 0 0 0 from rfl]
  rw [point_to_segment_same]
  have h0 : radians 0 = 0 := by simp [radians]
  have hE : (0 : ℝ) ≤ EARTH_RADIUS_M := by norm_num [EARTH_RADIUS_M]
  have hrad : (0 : ℝ) ≤ radians 1 := by
    simp only [radians]; positivity
  rw [h0]
  simp only [mul_zero, zero_mul, sub_zero, zero_sub, neg_zero, mul_comm]
  rw [zero_add]
  exact Real.sqrt_mul_self (mul_nonneg hE hrad)

lemma dist_farBridge_gt : (300 : ℝ) < bridgeLegDist pO pO farBridge := by
  rw [dist_farBridge]
  have h := earth_deg_m_lower
  simp only [radians, one_mul]
  linarith

/-- The counterexample geometry for the bounding-box filter: a leg at
latitude 89 and a bridge 0.1 degrees of longitude away. -/
def bridge89 : Bridge := ⟨89, 0.1, 1⟩

/-- Default-threshold engine whose only bridge is `bridge89`. -/
def engine89 : BridgeEngine := ⟨300, 0, 0.25, [bridge89]⟩

/-- The degenerate leg point at latitude 89, longitude 0. -/
def p89 : ℝ × ℝ := ((89 : ℝ), (0 : ℝ))

lemma legMidLatRad_p89 : legMidLatRad p89 p89 = radians 89 := by
  simp only [legMidLatRad, p89, radians]
  norm_num

lemma cos_radians_89_eq : Real.cos (radians 89) = Real.sin (Real.pi / 180) := by
  have h : radians 89 = Real.pi / 2 - Real.pi / 180 := by
    simp only [radians]; ring
  rw [h, Real.cos_pi_div_two_sub]

lemma sin_pi_div_180_nonneg : 0 ≤ Real.sin (Real.pi / 180) :=
  Real.sin_nonneg_of_nonneg_of_le_pi (by positivity) (by linarith [Real.pi_pos])

lemma sin_pi_div_180_lt : Real.sin (Real.pi / 180) < 0.0175 := by
  have h1 : Real.sin (Real.pi / 180) < Real.pi / 180 := Real.sin_lt (by positivity)
  have h2 := Real.pi_lt_d2
  linarith

lemma cos_radians_89_lt : Real.cos (radians 89) < 0.1 := by
  rw [cos_radians_89_eq]
  have := sin_pi_div_180_lt
  linarith

lemma cos_radians_89_nonneg : 0 ≤ Real.cos (radians 89) := by
  rw [cos_radians_89_eq]; exact sin_pi_div_180_nonneg

lemma candidatesOf_engine89 : candidatesOf engine89 p89 p89 = [] := by
  have hmax : max (Real.cos (legMidLatRad p89 p89)) 0.1 = 0.1 := by
    rw [legMidLatRad_p89]
    exact max_eq_right cos_radians_89_lt.le
  have hlon : ¬ (bridge89.lon ≤ (legBox engine89 p89 p89).lon_max) := by
    simp only [legBox, hmax, bridge89, engine89]
    simp only [p89]
    norm_num
  simp only [candidatesOf]
  rw [show engine89.bridges_df = [bridge89] from rfl, List.filter_cons, List.filter_nil]
  rw [if_neg (by simp [hlon])]

lemma legA_p89 : legA p89 p89 = ((0 : ℝ), EARTH_RADIUS_M * radians 89) := by
  simp [legA, p89, latlon_to_xy_m, radians]

lemma legB_p89 : legB p89 p89 = ((0 : ℝ), EARTH_RADIUS_M * radians 89) := by
  simp [legB, p89, latlon_to_xy_m, radians]

lemma dist_bridge89 :
    bridgeLegDist p89 p89 bridge89 =
      EARTH_RADIUS_M * radians 0.1 * Real.cos (radians 89) := by
  rw [bridgeLegDist, legA_p89, legB_p89, legMidLatRad_p89]
  rw [show stepDist (radians 89) ((0 : ℝ), EARTH_RADIUS_M * radians 89)
        ((0 : ℝ), EARTH_RADIUS_M * radians 89) bridge89 =
      point_to_segment_distance_m
        (EARTH_RADIUS_M * radians 0.1 * Real.cos (radians 89))
        (EARTH_RADIUS_M * radians 89) 0 (EARTH_RADIUS_M * radians 89)
        0 (EARTH_RADIUS_M * radians 89) from rfl]
  rw [point_to_segment_same]
  have hc := cos_radians_89_nonneg
  have hE : (0 : ℝ) ≤ EARTH_RADIUS_M := by norm_num [EARTH_RADIUS_M]
  have hrad : (0 : ℝ) ≤ radians 0.1 := by
    simp only [radians]; positivity
  have hx : (0 : ℝ) ≤ EARTH_RADIUS_M * radians 0.1 * Real.cos (radians 89) :=
    mul_nonneg (mul_nonneg hE hrad) hc
  simp only [sub_zero, sub_self, mul_zero, add_zero]
  exact Real.sqrt_mul_self hx

lemma dist_bridge89_le : bridgeLegDist p89 p89 bridge89 ≤ 300 := by
  rw [dist_bridge89]
  have h1 : Real.cos (radians 89) < 0.0175 := by
    rw [cos_radians_89_eq]; exact sin_pi_div_180_lt
  have h2 := cos_radians_89_nonneg
  have h3 := Real.pi_lt_d2
  have h4 := Real.pi_pos
  have h5 : EARTH_RADIUS_M * radians 0.1 ≤ 11150 := by
    simp only [radians, EARTH_RADIUS_M]
    nlinarith
  have h6 : (0 : ℝ) ≤ EARTH_RADIUS_M * radians 0.1 := by
    simp only [radians, EARTH_RADIUS_M]
    positivity
  have h7 : EARTH_RADIUS_M * radians 0.1 * Real.cos (radians 89) ≤ 11150 * 0.0175 :=
    mul_le_mul h5 h1.le h2 (by norm_num)
  linarith

lemma check_leg_engine89 : check_leg engine89 p89 p89 5 = ⟨false, false, none, none⟩ := by
  simp [check_leg, candidatesOf_engine89]

lemma check_leg_noFilter_engine89 :
    (check_leg_noFilter engine89 p89 p89 5).has_conflict = true := by
  rw [(check_leg_noFilter_flags_eq engine89 p89 p89 5).1]
  have hd : decide (bridgeLegDist p89 p89 bridge89 ≤ engine89.search_radius_m) = true := by
    simpa [engine89] using dist_bridge89_le
  simp only [engine89] at hd
  simp only [engine89, List.any_cons, List.any_nil]
  rw [hd]
  norm_num [bridge89]

/-! ### Claims -/

/-- C1 (corrected): for every leg and vehicle height, the result's
near-height-limit flag is true if and only if at least one bounding-box
candidate bridge within the search radius has clearance at most the
conflict margin or at most the near margin.  In particular the code sets
the near flag for a conflicting bridge (source line 221) instead of
suppressing it, and both band ends are inclusive comparisons. -/
theorem near_flag_iff (e : BridgeEngine) (s t : ℝ × ℝ) (vh : ℝ) :
    (check_leg e s t vh).near_height_limit = true ↔
      ∃ br ∈ candidatesOf e s t, bridgeLegDist s t br ≤ e.search_radius_m ∧
        (br.height_m - vh ≤ e.conflict_clearance_m ∨
         br.height_m - vh ≤ e.near_clearance_m) := by
  rw [check_leg_near_eq]
  simp [List.any_eq_true]

/-- C1 witness: the iff at a concrete engine, leg and height. -/
theorem near_flag_iff_witness :
    (check_leg (engineAt 1) pO pO 5).near_height_limit = true ↔
      ∃ br ∈ candidatesOf (engineAt 1) pO pO,
        bridgeLegDist pO pO br ≤ (engineAt 1).search_radius_m ∧
        (br.height_m - 5 ≤ (engineAt 1).conflict_clearance_m ∨
         br.height_m - 5 ≤ (engineAt 1).near_clearance_m) :=
  near_flag_iff (engineAt 1) pO pO 5

/-- C1 counterexample: a conflicting in-range bridge (clearance -4 m) also
raises `near_height_limit`; the conflict does not suppress the near flag as
the claim states. -/
theorem conflict_does_not_suppress_near :
    (check_leg (engineAt 1) pO pO 5).has_conflict = true ∧
    (check_leg (engineAt 1) pO pO 5).near_height_limit = true := by
  rw [check_leg_engineAt, if_pos (by norm_num : (1 : ℝ) - 5 ≤ 0)]
  exact ⟨rfl, rfl⟩

/-- C2 (corrected): for every leg and vehicle height, `has_conflict` is
true if and only if at least one bounding-box candidate bridge within the
search radius has clearance at most (not strictly below) the conflict
margin: the comparison on source line 219 is `<=`, so a clearance exactly
equal to the margin does conflict. -/
theorem has_conflict_flag_iff (e : BridgeEngine) (s t : ℝ × ℝ) (vh : ℝ) :
    (check_leg e s t vh).has_conflict = true ↔
      ∃ br ∈ candidatesOf e s t, bridgeLegDist s t br ≤ e.search_radius_m ∧
        br.height_m - vh ≤ e.conflict_clearance_m := by
  rw [check_leg_has_conflict_eq]
  simp [List.any_eq_true]

/-- C2 witness: the iff at a concrete engine, leg and height. -/
theorem has_conflict_flag_iff_witness :
    (check_leg (engineAt 1) pO pO 1).has_conflict = true ↔
      ∃ br ∈ candidatesOf (engineAt 1) pO pO,
        bridgeLegDist pO pO br ≤ (engineAt 1).search_radius_m ∧
        br.height_m - 1 ≤ (engineAt 1).conflict_clearance_m :=
  has_conflict_flag_iff (engineAt 1) pO pO 1

/-- C2 counterexample: a bridge whose clearance exactly equals the conflict
margin (height 1 m, vehicle 1 m, margin 0) is reported as a conflict, while
no bridge has clearance strictly below the margin. -/
theorem conflict_at_exact_margin :
    (check_leg (engineAt 1) pO pO 1).has_conflict = true ∧
    ¬ ((bridgeAt 1).height_m - 1 < (engineAt 1).conflict_clearance_m) := by
  constructor
  · rw [check_leg_engineAt, if_pos (by norm_num : (1 : ℝ) - 1 ≤ 0)]
  · norm_num [bridgeAt, engineAt]

/-- C8 (confirmed): on a leg whose start and end points coincide, the
per-bridge distance computation degenerates to the point-to-point Euclidean
distance from the projected bridge to the single projected point — the
zero-length guard of source lines 119-123 avoids the division by the
squared segment length. -/
theorem zero_length_leg_point_distance (s : ℝ × ℝ) (br : Bridge) :
    bridgeLegDist s s br =
      Real.sqrt
        (((latlon_to_xy_m br.lat br.lon (legMidLatRad s s)).1 - (legA s s).1) ^ 2 +
         ((latlon_to_xy_m br.lat br.lon (legMidLatRad s s)).2 - (legA s s).2) ^ 2) := by
  rw [bridgeLegDist]
  rw [show legB s s = legA s s from rfl]
  rw [stepDist, point_to_segment_same]
  congr 1
  ring

/-- C9 (confirmed): in every result returned by `check_leg`, a true
conflict flag forces a true near-height-limit flag, because the conflict
branch of the loop also sets the near flag (source line 221). -/
theorem conflict_implies_near_flag (e : BridgeEngine) (s t : ℝ × ℝ) (vh : ℝ)
    (h : (check_leg e s t vh).has_conflict = true) :
    (check_leg e s t vh).near_height_limit = true := by
  rw [check_leg_near_eq]
  rw [check_leg_has_conflict_eq] at h
  rw [List.any_eq_true] at h ⊢
  obtain ⟨br, hmem, hpred⟩ := h
  refine ⟨br, hmem, ?_⟩
  simp only [Bool.and_eq_true, decide_eq_true_eq, Bool.or_eq_true] at hpred ⊢
  exact ⟨hpred.1, Or.inl hpred.2⟩

/-- C9 witness: at a concrete conflicting configuration the near flag is
forced to true. -/
theorem conflict_implies_near_flag_witness :
    (check_leg (engineAt 1) pO pO 5).near_height_limit = true :=
  conflict_implies_near_flag (engineAt 1) pO pO 5
    (by rw [check_leg_engineAt, if_pos (by norm_num : (1 : ℝ) - 5 ≤ 0)])

/-- C4 (confirmed): for a fixed engine and leg, risk classification is
monotone in the vehicle height: a conflict reported at the lower height is
still reported at the higher height, and conflict-or-near-limit at the
lower height is still conflict-or-near-limit at the higher height. -/
theorem classification_monotone_in_height (e : BridgeEngine) (s t : ℝ × ℝ)
    (h1 h2 : ℝ) (hle : h1 ≤ h2) :
    ((check_leg e s t h1).has_conflict = true →
      (check_leg e s t h2).has_conflict = true) ∧
    ((check_leg e s t h1).has_conflict = true ∨
      (check_leg e s t h1).near_height_limit = true →
      (check_leg e s t h2).has_conflict = true ∨
      (check_leg e s t h2).near_height_limit = true) := by
  constructor
  · intro h
    rw [check_leg_has_conflict_eq, List.any_eq_true] at h ⊢
    obtain ⟨br, hmem, hpred⟩ := h
    simp only [Bool.and_eq_true, decide_eq_true_eq] at hpred
    refine ⟨br, hmem, ?_⟩
    simp only [Bool.and_eq_true, decide_eq_true_eq]
    exact ⟨hpred.1, by linarith [hpred.2]⟩
  · intro h
    have hnear1 : (check_leg e s t h1).near_height_limit = true := by
      rcases h with h | h
      · rw [check_leg_near_eq, List.any_eq_true]
        rw [check_leg_has_conflict_eq, List.any_eq_true] at h
        obtain ⟨br, hmem, hpred⟩ := h
        simp only [Bool.and_eq_true, decide_eq_true_eq, Bool.or_eq_true] at hpred ⊢
        exact ⟨br, hmem, hpred.1, Or.inl hpred.2⟩
      · exact h
    right
    rw [check_leg_near_eq, List.any_eq_true] at hnear1 ⊢
    obtain ⟨br, hmem, hpred⟩ := hnear1
    simp only [Bool.and_eq_true, decide_eq_true_eq, Bool.or_eq_true] at hpred ⊢
    refine ⟨br, hmem, hpred.1, ?_⟩
    rcases hpred.2 with hcc | hnc
    · exact Or.inl (by linarith)
    · exact Or.inr (by linarith)

/-- C4 witness: monotonicity applied between heights 2 and 5 at a concrete
engine. -/
theorem classification_monotone_in_height_witness :
    ((check_leg (engineAt 1) pO pO 2).has_conflict = true →
      (check_leg (engineAt 1) pO pO 5).has_conflict = true) ∧
    ((check_leg (engineAt 1) pO pO 2).has_conflict = true ∨
      (check_leg (engineAt 1) pO pO 2).near_height_limit = true →
      (check_leg (engineAt 1) pO pO 5).has_conflict = true ∨
      (check_leg (engineAt 1) pO pO 5).near_height_limit = true) :=
  classification_monotone_in_height (engineAt 1) pO pO 2 5 (by norm_num)

/-- C5 (confirmed): a bridge whose computed distance to the leg exceeds the
search radius has no effect on either flag: inserting it anywhere in the
catalog leaves `has_conflict` and `near_height_limit` unchanged, whatever
its height. -/
theorem far_bridge_no_effect (r cc nc : ℝ) (l1 l2 : List Bridge) (br : Bridge)
    (s t : ℝ × ℝ) (vh : ℝ)
    (hfar : r < bridgeLegDist s t br) :
    ((check_leg ⟨r, cc, nc, l1 ++ br :: l2⟩ s t vh).has_conflict =
      (check_leg ⟨r, cc, nc, l1 ++ l2⟩ s t vh).has_conflict) ∧
    ((check_leg ⟨r, cc, nc, l1 ++ br :: l2⟩ s t vh).near_height_limit =
      (check_leg ⟨r, cc, nc, l1 ++ l2⟩ s t vh).near_height_limit) := by
  have hdec : decide (bridgeLegDist s t br ≤ r) = false := by
    simp [not_le.mpr hfar]
  have hbox : legBox ⟨r, cc, nc, l1 ++ br :: l2⟩ s t = legBox ⟨r, cc, nc, l1 ++ l2⟩ s t := rfl
  constructor
  · rw [check_leg_has_conflict_eq, check_leg_has_conflict_eq]
    simp only [candidatesOf, hbox]
    dsimp only
    rw [List.filter_append, List.filter_append, List.filter_cons]
    split_ifs with hf
    · simp [List.any_append, hdec]
    · simp [List.any_append]
  · rw [check_leg_near_eq, check_leg_near_eq]
    simp only [candidatesOf, hbox]
    dsimp only
    rw [List.filter_append, List.filter_append, List.filter_cons]
    split_ifs with hf
    · simp [List.any_append, hdec]
    · simp [List.any_append]

/-- C5 witness: inserting a bridge one degree of latitude away (about
111 km, beyond the 300 m radius) into an empty catalog changes neither
flag. -/
theorem far_bridge_no_effect_witness :
    ((check_leg ⟨300, 0, 0.25, [] ++ farBridge :: []⟩ pO pO 4).has_conflict =
      (check_leg ⟨300, 0, 0.25, ([] : List Bridge) ++ []⟩ pO pO 4).has_conflict) ∧
    ((check_leg ⟨300, 0, 0.25, [] ++ farBridge :: []⟩ pO pO 4).near_height_limit =
      (check_leg ⟨300, 0, 0.25, ([] : List Bridge) ++ []⟩ pO pO 4).near_height_limit) :=
  far_bridge_no_effect 300 0 0.25 [] [] farBridge pO pO 4 dist_farBridge_gt

/-- C7 (corrected): with a non-positive vehicle height the check reports no
conflict provided every catalog bridge is strictly higher than the conflict
margin; without that proviso a catalog bridge of non-positive height still
conflicts. -/
theorem nonpos_height_no_conflict (e : BridgeEngine) (s t : ℝ × ℝ) (vh : ℝ)
    (hv : vh ≤ 0)
    (hb : ∀ br ∈ e.bridges_df, e.conflict_clearance_m < br.height_m) :
    (check_leg e s t vh).has_conflict = false := by
  rw [check_leg_has_conflict_eq]
  by_contra hne
  rw [Bool.not_eq_false, List.any_eq_true] at hne
  obtain ⟨br, hmem, hpred⟩ := hne
  simp only [Bool.and_eq_true, decide_eq_true_eq] at hpred
  simp only [candidatesOf] at hmem
  have hmem' : br ∈ e.bridges_df := List.mem_of_mem_filter hmem
  have hh := hb br hmem'
  linarith [hpred.2]

/-- C7 witness: vehicle height 0 against a 1 m bridge above margin 0 gives
no conflict. -/
theorem nonpos_height_no_conflict_witness :
    (check_leg (engineAt 1) pO pO 0).has_conflict = false :=
  nonpos_height_no_conflict (engineAt 1) pO pO 0 (le_refl 0)
    (by
      intro br hbr
      simp only [engineAt, List.mem_singleton] at hbr
      subst hbr
      norm_num [bridgeAt, engineAt])

/-- C7 counterexample: at vehicle height 0 (non-positive) a catalog bridge
of height 0 yields clearance 0, which the `<=` comparison of source line
219 reports as a conflict — refuting "a non-positive height never
conflicts" over every catalog. -/
theorem nonpos_height_conflict_example :
    (0 : ℝ) ≤ 0 ∧ (check_leg (engineAt 0) pO pO 0).has_conflict = true := by
  refine ⟨le_refl 0, ?_⟩
  rw [check_leg_engineAt, if_pos (by norm_num : (0 : ℝ) - 0 ≤ 0)]

/-- C10 (confirmed): every result of `check_leg` is well-formed — the
nearest-bridge and nearest-distance fields are `none` together, a recorded
nearest distance never exceeds the search radius, and a raised flag
guarantees a recorded nearest bridge. -/
theorem check_leg_result_wellformed (e : BridgeEngine) (s t : ℝ × ℝ) (vh : ℝ) :
    ((check_leg e s t vh).nearest_bridge = none ↔
      (check_leg e s t vh).nearest_distance_m = none) ∧
    (∀ d : ℝ, (check_leg e s t vh).nearest_distance_m = some d →
      d ≤ e.search_radius_m) ∧
    ((check_leg e s t vh).has_conflict = true ∨
      (check_leg e s t vh).near_height_limit = true →
      (check_leg e s t vh).nearest_bridge.isSome = true) := by
  have hwf : resultWF e.search_radius_m (check_leg e s t vh) := by
    rw [check_leg]
    split_ifs
    · exact ⟨by simp, by simp, by simp⟩
    · exact foldl_stepBridge_wf e vh _ _ _ _ _ ⟨by simp, by simp, by simp⟩
  exact hwf

/-- C10 witness: at a concrete conflicting configuration the recorded
nearest bridge is present. -/
theorem check_leg_result_wellformed_witness :
    (check_leg (engineAt 1) pO pO 5).nearest_bridge.isSome = true :=
  (check_leg_result_wellformed (engineAt 1) pO pO 5).2.2
    (Or.inl (by rw [check_leg_engineAt, if_pos (by norm_num : (1 : ℝ) - 5 ≤ 0)]))

/-- C3 (corrected): catalog construction is strict, not fail-open: a
missing source file propagates the read exception, a source without all of
the required columns `lat`, `lon`, `height_m` raises `ValueError`, and only
when all three are present does construction succeed, keeping exactly the
rows whose three required cells are present. -/
theorem init_strict (r cc nc : ℝ) :
    BridgeEngine.init none r cc nc = Except.error InitError.fileNotFound ∧
    (∀ df : Csv, ¬ (ColName.lat ∈ df.columns ∧ ColName.lon ∈ df.columns ∧
        ColName.height_m ∈ df.columns) →
      BridgeEngine.init (some df) r cc nc = Except.error InitError.missingColumns) ∧
    (∀ df : Csv, ColName.lat ∈ df.columns → ColName.lon ∈ df.columns →
      ColName.height_m ∈ df.columns →
      BridgeEngine.init (some df) r cc nc =
        Except.ok ⟨r, cc, nc, df.rows.filterMap rowToBridge⟩) := by
  refine ⟨rfl, ?_, ?_⟩
  · intro df hmiss
    have hcond : ¬ ((df.columns.contains ColName.lat && df.columns.contains ColName.lon &&
        df.columns.contains ColName.height_m) = true) := by
      intro hcon
      apply hmiss
      simp only [Bool.and_eq_true] at hcon
      exact ⟨List.elem_iff.mp hcon.1.1, List.elem_iff.mp hcon.1.2, List.elem_iff.mp hcon.2⟩
    simp only [BridgeEngine.init]
    rw [if_neg hcond]
  · intro df h1 h2 h3
    have hcond : (df.columns.contains ColName.lat && df.columns.contains ColName.lon &&
        df.columns.contains ColName.height_m) = true := by
      simp only [Bool.and_eq_true]
      exact ⟨⟨List.elem_iff.mpr h1, List.elem_iff.mpr h2⟩, List.elem_iff.mpr h3⟩
    simp only [BridgeEngine.init]
    rw [if_pos hcond]

/-- C3 witness: the two raising branches at concrete inputs — a missing
file, and a source whose only column is unrecognized. -/
theorem init_strict_witness :
    BridgeEngine.init none 300 0 0.25 = Except.error InitError.fileNotFound ∧
    BridgeEngine.init (some ⟨[ColName.other 0], []⟩) 300 0 0.25 =
      Except.error InitError.missingColumns :=
  ⟨(init_strict 300 0 0.25).1,
   (init_strict 300 0 0.25).2.1 ⟨[ColName.other 0], []⟩ (by simp)⟩

/-- C3 counterexample: a missing source file makes construction raise the
propagated file error instead of loading an empty catalog. -/
theorem init_missing_file_errors :
    BridgeEngine.init none 300 0 0.25 = Except.error InitError.fileNotFound := rfl

/-- C6 (corrected): the bounding-box pre-filter preserves both flags
whenever the cosine clamp of the longitude conversion is inactive
(`0.1 ≤ cos(mid_lat_rad)`, mid-latitude below roughly 84.3 degrees): then
`check_leg` agrees with the reference that computes the segment distance
for every catalog bridge.  Near the poles the clamp makes the box
under-inclusive and the equivalence fails. -/
theorem box_filter_preserves_flags (e : BridgeEngine) (s t : ℝ × ℝ) (vh : ℝ)
    (hcos : 0.1 ≤ Real.cos (legMidLatRad s t)) :
    (check_leg e s t vh).has_conflict = (check_leg_noFilter e s t vh).has_conflict ∧
    (check_leg e s t vh).near_height_limit =
      (check_leg_noFilter e s t vh).near_height_limit := by
  obtain ⟨hnf1, hnf2⟩ := check_leg_noFilter_flags_eq e s t vh
  constructor
  · rw [check_leg_has_conflict_eq, hnf1]
    apply Bool.coe_iff_coe.mp
    rw [List.any_eq_true, List.any_eq_true]
    constructor
    · rintro ⟨br, hmem, hpred⟩
      simp only [candidatesOf] at hmem
      exact ⟨br, List.mem_of_mem_filter hmem, hpred⟩
    · rintro ⟨br, hmem, hpred⟩
      have hpred' := hpred
      simp only [Bool.and_eq_true, decide_eq_true_eq] at hpred'
      obtain ⟨hb1, hb2, hb3, hb4⟩ := in_radius_imp_in_box e s t br hcos hpred'.1
      refine ⟨br, ?_, hpred⟩
      simp only [candidatesOf]
      refine List.mem_filter.mpr ⟨hmem, ?_⟩
      simp [hb1, hb2, hb3, hb4]
  · rw [check_leg_near_eq, hnf2]
    apply Bool.coe_iff_coe.mp
    rw [List.any_eq_true, List.any_eq_true]
    constructor
    · rintro ⟨br, hmem, hpred⟩
      simp only [candidatesOf] at hmem
      exact ⟨br, List.mem_of_mem_filter hmem, hpred⟩
    · rintro ⟨br, hmem, hpred⟩
      have hpred' := hpred
      simp only [Bool.and_eq_true, Bool.or_eq_true, decide_eq_true_eq] at hpred'
      obtain ⟨hb1, hb2, hb3, hb4⟩ := in_radius_imp_in_box e s t br hcos hpred'.1
      refine ⟨br, ?_, hpred⟩
      simp only [candidatesOf]
      refine List.mem_filter.mpr ⟨hmem, ?_⟩
      simp [hb1, hb2, hb3, hb4]

/-- C6 witness: the equivalence at a concrete engine and equatorial leg,
where the clamp is inactive since `cos 0 = 1`. -/
theorem box_filter_preserves_flags_witness :
    (check_leg (engineAt 1) pO pO 5).has_conflict =
      (check_leg_noFilter (engineAt 1) pO pO 5).has_conflict ∧
    (check_leg (engineAt 1) pO pO 5).near_height_limit =
      (check_leg_noFilter (engineAt 1) pO pO 5).near_height_limit :=
  box_filter_preserves_flags (engineAt 1) pO pO 5
    (by rw [cos_legMidLatRad_pO]; norm_num)

/-- C6 counterexample: at mid-latitude 89 the clamp `max(cos, 0.1)` makes
the longitude padding under-inclusive: a bridge about 194 m from the leg —
within the 300 m search radius — is discarded by the box, so the filtered
check misses the conflict the full scan reports. -/
theorem box_filter_excludes_in_radius_bridge :
    bridgeLegDist p89 p89 bridge89 ≤ engine89.search_radius_m ∧
    (check_leg engine89 p89 p89 5).has_conflict = false ∧
    (check_leg_noFilter engine89 p89 p89 5).has_conflict = true := by
  refine ⟨dist_bridge89_le, ?_, check_leg_noFilter_engine89⟩
  rw [check_leg_engine89]
